import Mathlib

/-!
Verification of the XShaderCompiler (BearishSun fork) compilation-driver and
HLSL code-generator sources against their natural-language specification.

The development shallowly embeds the control flow of `Compiler.cpp`, the
declaration-level emission logic of `HLSLGenerator.cpp`, and the output-filename
logic of the CLI `Shell.cpp`.  The bodies of the pipeline stages themselves
(preprocessor, parser, analyzer, GLSL generator, reflection analyzer) are not
among the sources; their outcomes enter the model as plain data (`StageEnv`),
while every branch decision made by the driver is translated from the source.
-/

namespace Xsc

/-! ## Shader language and target enumerations

`Xsc.h` / `Targets.h` are not among the sources; the enumerations are modelled
from the spec (section 6): input versions HLSL3-5 and the GLSL family, output
dialects GLSL / ESSL / VKSL / HLSL (the concrete numeric versions are
irrelevant to every claim, only the language family is consulted by the
driver). -/

inductive InputShaderVersion
  | HLSL3 | HLSL4 | HLSL5 | GLSL | ESSL | VKSL
  deriving DecidableEq

inductive OutputShaderVersion
  | GLSL | ESSL | VKSL | HLSL
  deriving DecidableEq

inductive ShaderTarget
  | Undefined
  | VertexShader
  | TessellationControlShader
  | TessellationEvaluationShader
  | GeometryShader
  | FragmentShader
  | ComputeShader
  deriving DecidableEq

/-- Modelled from the spec: `IsLanguageHLSL` (declared in `Xsc.h`, not among the
sources) recognizes the HLSL shader-model input versions. -/
def IsLanguageHLSL : InputShaderVersion → Bool
  | .HLSL3 => true
  | .HLSL4 => true
  | .HLSL5 => true
  | _ => false

/-- Modelled from the spec: the overload `IsLanguageGLSL` on input versions
recognizes the GLSL-family inputs (GLSL, ESSL, VKSL) - exactly the non-HLSL
input versions. -/
def IsLanguageGLSLInput (v : InputShaderVersion) : Bool :=
  !IsLanguageHLSL v

/-- Modelled from the spec: `IsLanguageGLSL` on output versions. -/
def IsLanguageGLSLOutput : OutputShaderVersion → Bool
  | .GLSL => true
  | _ => false

/-- Modelled from the spec: `IsLanguageESSL` on output versions. -/
def IsLanguageESSLOutput : OutputShaderVersion → Bool
  | .ESSL => true
  | _ => false

/-- Modelled from the spec: `IsLanguageVKSL` on output versions. -/
def IsLanguageVKSLOutput : OutputShaderVersion → Bool
  | .VKSL => true
  | _ => false

/-! ## Descriptors -/

/-- Name-mangling prefixes of the output descriptor (`Xsc.h`); the defaults
follow the upstream header: the entry-point input and output prefixes coincide
by default. -/
structure NameMangling where
  inputPrefix : String := "xsv_"
  outputPrefix : String := "xsv_"
  reservedWordPrefix : String := "xsr_"
  temporaryPrefix : String := "xst_"
  namespacePrefix : String := "xsn_"
  useAlwaysSemantics : Bool := false
  renameBufferFields : Bool := false
  deriving DecidableEq

structure Options where
  preprocessOnly : Bool := false
  validateOnly : Bool := false
  optimize : Bool := false
  preserveComments : Bool := false
  allowExtensions : Bool := false
  separateShaders : Bool := false
  autoBinding : Bool := false
  explicitBinding : Bool := false
  rowMajorAlignment : Bool := false
  showAST : Bool := false
  deriving DecidableEq

structure Formatting where
  lineMarks : Bool := false
  compactWrappers : Bool := false
  alwaysBracedScopes : Bool := false
  deriving DecidableEq

/-- The input descriptor.  `sourceCode` is the input stream: `none` is the null
stream pointer, `some s` a stream holding `s`. -/
structure ShaderInput where
  filename : String := ""
  entryPoint : String := "main"
  secondaryEntryPoint : String := ""
  shaderTarget : ShaderTarget := .Undefined
  shaderVersion : InputShaderVersion := .HLSL5
  sourceCode : Option String := none
  includeHandlerPresent : Bool := false
  warnings : Nat := 0
  extensions : Nat := 0
  deriving DecidableEq

/-- Identity of the output byte sink: the stream the caller supplied, or the
internal `dummyOutputStream` the driver substitutes for validation-only runs
(`Compiler.cpp` line 48). -/
inductive Sink
  | caller
  | dummy
  deriving DecidableEq

def Sink.isCaller : Sink → Bool
  | .caller => true
  | .dummy => false

/-- The output descriptor.  `sourceCode` is the output stream pointer: `none`
is null, `some s` identifies which sink bytes written through it reach. -/
structure ShaderOutput where
  sourceCode : Option Sink := none
  shaderVersion : OutputShaderVersion := .GLSL
  options : Options := {}
  formatting : Formatting := {}
  nameMangling : NameMangling := {}
  deriving DecidableEq

/-! ## Reports and the log sink -/

inductive ReportTypes
  | Info | Warning | Error
  deriving DecidableEq

structure Report where
  reportType : ReportTypes
  message : String
  deriving DecidableEq

/-- `ReportIdents.h` is not among the sources; the report identifiers are
modelled as distinct message strings. -/
def R_InputStreamCantBeNull : String := "input stream must not be null"

def R_OutputStreamCantBeNull : String := "output stream must not be null"

def R_NameManglingPrefixResCantBeEmpty : String :=
  "name mangling prefix for reserved words must not be empty"

def R_NameManglingPrefixTmpCantBeEmpty : String :=
  "name mangling prefix for temporary variables must not be empty"

def R_OverlappingNameManglingPrefixes : String :=
  "name mangling prefixes must not overlap"

def R_LangExtensionsNotSupported : String :=
  "language extensions not supported in this build"

def R_OnlyPreProcessingForNonHLSL : String :=
  "only pre-processing supported for non-HLSL input"

def R_PreProcessingSourceFailed : String := "pre-processing source code failed"

def R_ParsingSourceFailed : String := "parsing source code failed"

def R_AnalyzingSourceFailed : String := "analyzing source code failed"

def R_GeneratingOutputCodeFailed : String := "generating output code failed"

def R_EntryPointNotFound : String := "entry point not found"

def R_InvalidControlPathInFunc : String := "not all control paths return a value"

def R_InvalidControlPathInUnrefFunc : String :=
  "not all control paths in unreferenced function return a value"

/-- `Log::SubmitReport` is reached through the possibly-null `log_` member:
a report is delivered only when a log sink is present. -/
def submitIf (log : Bool) (rs : List Report) : List Report :=
  if log then rs else []

/-! ## Argument validation (`Compiler::ValidateArguments`, Compiler.cpp 87-130)

The C++ function throws `std::invalid_argument`; the embedding returns
`Except.error msg` for a throw and `Except.ok warns` for a normal return
carrying the warnings it submitted on the way out. -/

def validateArguments (inputDesc : ShaderInput) (outputDesc : ShaderOutput) :
    Except String (List Report) :=
  if inputDesc.sourceCode.isNone then
    .error R_InputStreamCantBeNull
  else if outputDesc.sourceCode.isNone then
    .error R_OutputStreamCantBeNull
  else
    let nameMngl := outputDesc.nameMangling
    if nameMngl.reservedWordPrefix = "" then
      .error R_NameManglingPrefixResCantBeEmpty
    else if nameMngl.temporaryPrefix = "" then
      .error R_NameManglingPrefixTmpCantBeEmpty
    else if nameMngl.reservedWordPrefix = nameMngl.inputPrefix
        ∨ nameMngl.reservedWordPrefix = nameMngl.outputPrefix
        ∨ nameMngl.reservedWordPrefix = nameMngl.temporaryPrefix
        ∨ nameMngl.temporaryPrefix = nameMngl.inputPrefix
        ∨ nameMngl.temporaryPrefix = nameMngl.outputPrefix then
      .error R_OverlappingNameManglingPrefixes
    else if nameMngl.namespacePrefix ≠ ""
        ∧ (nameMngl.namespacePrefix = nameMngl.inputPrefix
          ∨ nameMngl.namespacePrefix = nameMngl.outputPrefix
          ∨ nameMngl.namespacePrefix = nameMngl.reservedWordPrefix
          ∨ nameMngl.namespacePrefix = nameMngl.temporaryPrefix) then
      .error R_OverlappingNameManglingPrefixes
    else
      -- XSC_ENABLE_LANGUAGE_EXT is not defined in this build configuration
      .ok (if inputDesc.extensions ≠ 0 then
            [Report.mk .Warning R_LangExtensionsNotSupported]
          else [])

/-! ## The compilation pipeline (`Compiler::CompileShaderPrimary`, 132-271)

The stage implementations (preprocessor, parser, analyzer, GLSL generator,
reflection analyzer) are not among the sources; their outcomes are supplied as
an environment.  The driver's own branching - which stages run, in which order,
what is reported, what is written to which sink, and what is returned - is
translated from the source. -/

inductive Stage
  | preprocess | parse | analyze | optimize | generate | reflect
  deriving DecidableEq

structure StageEnv where
  /-- Result of `PreProcessor::Process`: `none` on failure, the processed
  character stream otherwise. -/
  preprocessResult : Option String := some ""
  /-- Whether `HLSLParser::ParseSource` produces a program. -/
  parseResult : Bool := true
  /-- Result of `HLSLAnalyzer::DecorateAST`. -/
  analyzeResult : Bool := true
  /-- Result of `GLSLGenerator::GenerateCode`. -/
  generatorResult : Bool := true
  /-- The bytes the generator writes into the output descriptor's stream. -/
  generatorOutput : String := ""
  /-- `PreProcessor::ListDefinedMacroIdents`. -/
  definedMacroIdents : List String := []
  deriving DecidableEq

/-- Everything one call observes: the returned flag, an escaped exception (if
any), the reports submitted to the log, the writes performed through output
stream pointers, the stages that ran, and whether the two reflection-data
assignments happened (`reflectionData->macros` after preprocessing, and
`ReflectionAnalyzer::Reflect` at the end). -/
structure CompileTrace where
  returned : Bool := false
  exception : Option String := none
  reports : List Report := []
  writes : List (Sink × String) := []
  stagesRun : List Stage := []
  reflectionMacrosSet : Bool := false
  reflectionReflected : Bool := false
  deriving DecidableEq

/-- A write through an output stream pointer (`(*outputDesc.sourceCode) << t`). -/
def writeTo (streamPtr : Option Sink) (text : String) : List (Sink × String) :=
  match streamPtr with
  | some s => [(s, text)]
  | none => []

def compileShaderPrimary (env : StageEnv) (log : Bool)
    (inputDesc : ShaderInput) (outputDesc : ShaderOutput)
    (reflectionData : Bool) : CompileTrace :=
  match validateArguments inputDesc outputDesc with
  | .error msg => { exception := some msg }
  | .ok warns =>
    let reports0 := submitIf log warns
    -- ----- Pre-processing -----
    -- reflectionData->macros is assigned right after Process, before the
    -- failure check (Compiler.cpp 164-165)
    let macrosSet := reflectionData
    match env.preprocessResult with
    | none =>
      { returned := false
        reports := reports0 ++ submitIf log [Report.mk .Error R_PreProcessingSourceFailed]
        stagesRun := [.preprocess]
        reflectionMacrosSet := macrosSet }
    | some processedInput =>
      if outputDesc.options.preprocessOnly then
        { returned := true
          reports := reports0
          writes := writeTo outputDesc.sourceCode processedInput
          stagesRun := [.preprocess]
          reflectionMacrosSet := macrosSet }
      else
        -- ----- Parsing ----- (an HLSL parser exists only for HLSL input)
        let programOk := IsLanguageHLSL inputDesc.shaderVersion && env.parseResult
        if !programOk then
          { returned := false
            reports := reports0 ++ submitIf log [Report.mk .Error R_ParsingSourceFailed]
            stagesRun := [.preprocess, .parse]
            reflectionMacrosSet := macrosSet }
        else
          -- ----- Context analysis ----- (showAST printing goes to the log
          -- through ASTPrinter, whose source is not among the files; it does
          -- not affect the returned value or the output stream)
          let analyzerResult := IsLanguageHLSL inputDesc.shaderVersion && env.analyzeResult
          if !analyzerResult then
            { returned := false
              reports := reports0 ++ submitIf log [Report.mk .Error R_AnalyzingSourceFailed]
              stagesRun := [.preprocess, .parse, .analyze]
              reflectionMacrosSet := macrosSet }
          else
            let stagesOpt := if outputDesc.options.optimize then [Stage.optimize] else []
            -- ----- Code generation ----- (a generator is invoked only for
            -- GLSL / ESSL / VKSL output; otherwise generatorResult stays false)
            let genInvoked := IsLanguageGLSLOutput outputDesc.shaderVersion
              || IsLanguageESSLOutput outputDesc.shaderVersion
              || IsLanguageVKSLOutput outputDesc.shaderVersion
            let generatorResult := genInvoked && env.generatorResult
            -- ----- Code reflection ----- runs before the (moved) generator
            -- failure check: BANSHEE CHANGES, Compiler.cpp 247-268
            { returned := generatorResult
              reports := reports0 ++
                (if !generatorResult then
                  submitIf log [Report.mk .Error R_GeneratingOutputCodeFailed]
                else [])
              writes := if genInvoked then writeTo outputDesc.sourceCode env.generatorOutput else []
              stagesRun := [.preprocess, .parse, .analyze] ++ stagesOpt
                ++ (if genInvoked then [Stage.generate] else [])
                ++ (if reflectionData then [Stage.reflect] else [])
              reflectionMacrosSet := macrosSet
              reflectionReflected := reflectionData }

/-- The copy of the output descriptor made by `Compiler::CompileShader`
(Compiler.cpp 47-57): validation-only runs have their output stream replaced
by the internal dummy stream, and `autoBinding` implicitly enables
`explicitBinding`. -/
def outputDescCopy (outputDesc : ShaderOutput) : ShaderOutput :=
  let c :=
    if outputDesc.options.validateOnly then
      { outputDesc with sourceCode := some Sink.dummy }
    else outputDesc
  if c.options.autoBinding then
    { c with options := { c.options with explicitBinding := true } }
  else c

/-- `Compiler::CompileShader` (Compiler.cpp 37-67).  The input and output
descriptors are taken by const reference in C++ and never written through;
the embedding takes them by value. -/
def compileShader (env : StageEnv) (log : Bool)
    (inputDesc : ShaderInput) (outputDesc : ShaderOutput)
    (reflectionData : Bool) : CompileTrace :=
  if !IsLanguageHLSL inputDesc.shaderVersion && !outputDesc.options.preprocessOnly then
    { returned := false
      reports := submitIf log [Report.mk .Error R_OnlyPreProcessingForNonHLSL] }
  else
    compileShaderPrimary env log inputDesc (outputDescCopy outputDesc) reflectionData

/-- Modelled from the spec: the public API entry `Xsc::CompileShader`
(`Xsc.cpp`, not among the sources) wraps `Compiler::CompileShader`.  Per the
spec, "There is no exception-as-control-flow contract across the public API: a
failed call returns false and all diagnostics live in the log": an exception
escaping the pipeline is caught, submitted as an error report to the log sink,
and the call returns false. -/
def compileShaderPublic (env : StageEnv) (log : Bool)
    (inputDesc : ShaderInput) (outputDesc : ShaderOutput)
    (reflectionData : Bool) : CompileTrace :=
  let t := compileShader env log inputDesc outputDesc reflectionData
  match t.exception with
  | some msg =>
    { t with
      returned := false
      exception := none
      reports := t.reports ++ submitIf log [Report.mk .Error msg] }
  | none => t

/-- The bytes that reach the caller-supplied output sink. -/
def callerBytes (t : CompileTrace) : String :=
  String.join ((t.writes.filter (fun w => w.1.isCaller)).map (fun w => w.2))

/-! ## The HLSL code generator (`HLSLGenerator.cpp`)

The generator walks the decorated AST and emits declaration snippets; the
embedding models the AST fragment its declaration-level visitors consume.
Statement- and expression-level emission (pure string production from
already-decorated nodes, no claim concerns its contents) is carried as
pre-rendered text on the nodes; inline structure declarations inside a type
specifier and member functions of structures are outside the modelled
fragment. -/

/-- AST node flag bits consulted by the generator (`AST::isReachable`,
`FunctionDecl::hasNonReturnControlPath`, `FunctionDecl::isEntryPoint`). -/
structure Flags where
  isReachable : Bool := false
  hasNonReturnControlPath : Bool := false
  isEntryPoint : Bool := false
  deriving DecidableEq

/-- Generator state established by `HLSLGenerator::GenerateCodePrimary`
(HLSLGenerator.cpp 57-65) plus the scope markers of the `Generator` base class
(`InsideFunctionDecl`, `InsideStructDecl`, `InsideUniformBufferDecl`, whose
push/pop discipline is threaded here as context fields). -/
structure GenCtx where
  shaderTarget : ShaderTarget := .Undefined
  versionOut : OutputShaderVersion := .HLSL
  nameMangling : NameMangling := {}
  allowExtensions : Bool := false
  preserveComments : Bool := false
  allowLineMarks : Bool := false
  compactWrappers : Bool := false
  alwaysBracedScopes : Bool := false
  separateShaders : Bool := false
  warnBasic : Bool := false
  insideFunctionDecl : Bool := false
  insideStructDecl : Bool := false
  insideUniformBufferDecl : Bool := false
  deriving DecidableEq

/-- What one visitor invocation produces: output fragments, reports submitted
to the log, and - since `Generator::Error` throws - an optional fatal error
that aborts the traversal. -/
structure EmitOut where
  out : List String := []
  reports : List Report := []
  fatal : Option String := none
  deriving DecidableEq

/-- Sequencing of two emissions: a fatal error stops the traversal. -/
def EmitOut.seq (a b : EmitOut) : EmitOut :=
  match a.fatal with
  | some _ => a
  | none => { out := a.out ++ b.out, reports := a.reports ++ b.reports, fatal := b.fatal }

/-- `HLSLGenerator::WriteLineMark` (758-772). -/
def writeLineMark (ctx : GenCtx) (line : Nat) : List String :=
  if ctx.allowLineMarks then ["#line " ++ toString line] else []

/-- Comma-separated interleaving used by the `Write(", ")` loops. -/
def joinSep (sep : String) : List (List String) → List String
  | [] => []
  | [x] => x
  | x :: xs => x ++ [sep] ++ joinSep sep xs

/-- `VarDecl` node: identifier, array dimensions, optional initializer
(pre-rendered; `none` also covers an initializer whose type denoter is null),
optional semantic.  The static-member redirection (`FetchStaticVarDeclRef`,
resolved in AST.cpp which is not among the sources) is outside the fragment. -/
structure VarDeclNode where
  ident : String := ""
  line : Nat := 0
  arrayDims : List Nat := []
  initializer : Option String := none
  semantic : Option String := none
  deriving DecidableEq

/-- `HLSLGenerator::VisitVarDecl` (176-200). -/
def visitVarDecl (ctx : GenCtx) (ast : VarDeclNode) : List String :=
  [ast.ident]
  ++ ast.arrayDims.map (fun d => "[" ++ toString d ++ "]")
  ++ (if !ctx.insideUniformBufferDecl then
        match ast.initializer with
        | some ini => [" = ", ini]
        | none => []
      else [])
  ++ (match ast.semantic with
      | some sem => [" : " ++ sem]
      | none => [])

/-- `VarDeclStmnt` node.  Modifier sets are carried as their HLSL keywords
(the `StorageClassToHLSLKeyword` tables live in HLSLKeywords.cpp, not among
the sources); `isStructMember` stands for `FetchStructDeclRef() != nullptr`. -/
structure VarDeclStmntNode where
  flags : Flags := {}
  line : Nat := 0
  interpModifiers : List String := []
  storageClasses : List String := []
  typeModifiers : List String := []
  typeName : String := ""
  isStructMember : Bool := false
  varDecls : List VarDeclNode := []
  deriving DecidableEq

/-- `HLSLGenerator::VisitVarDeclStmnt` (319-377). -/
def visitVarDeclStmnt (ctx : GenCtx) (ast : VarDeclStmntNode) : List String :=
  if !ast.flags.isReachable && !ctx.insideFunctionDecl && !ctx.insideStructDecl then
    []
  else if ast.storageClasses.contains "static" && ast.isStructMember then
    []
  else
    (if !ctx.insideStructDecl then
      ast.interpModifiers.map (· ++ " ") ++ ast.storageClasses.map (· ++ " ")
    else [])
    ++ ast.typeModifiers.map (· ++ " ")
    ++ [ast.typeName, " "]
    ++ joinSep ", " (ast.varDecls.map (visitVarDecl ctx))
    ++ [";"]

/-- `StructDecl` node (an empty identifier is an anonymous structure). -/
structure StructDeclNode where
  ident : String := ""
  line : Nat := 0
  isNonEntryPointParam : Bool := false
  varMembers : List VarDeclStmntNode := []
  deriving DecidableEq

/-- `HLSLGenerator::WriteStructDecl` (1179-1211); member functions are outside
the modelled fragment. -/
def writeStructDecl (ctx : GenCtx) (structDecl : StructDeclNode)
    (endWithSemicolon : Bool) : List String :=
  ["struct"]
  ++ (if structDecl.ident ≠ "" then [" " ++ structDecl.ident] else [])
  ++ ["\x7b"]
  ++ (structDecl.varMembers.map
        (visitVarDeclStmnt { ctx with insideStructDecl := true })).flatten
  ++ [if endWithSemicolon then "\x7d;" else "\x7d"]

/-- A function parameter: a `VarDeclStmnt` carrying exactly one declarator
(the generator raises `R_InvalidParamVarCount` otherwise; the model's
parameter nodes carry the single declarator directly). -/
structure ParamNode where
  isInput : Bool := true
  isOutput : Bool := false
  isUniform : Bool := false
  typeModifiers : List String := []
  typeName : String := ""
  ident : String := ""
  arrayDims : List Nat := []
  semantic : Option String := none
  deriving DecidableEq

/-- `HLSLGenerator::WriteParameter` (1288-1319). -/
def writeParameter (p : ParamNode) : List String :=
  (if p.isOutput then (if p.isInput then ["inout "] else ["out "]) else [])
  ++ p.typeModifiers.map (· ++ " ")
  ++ [p.typeName, " ", p.ident]
  ++ p.arrayDims.map (fun d => "[" ++ toString d ++ "]")
  ++ (match p.semantic with
      | some sem => [" : " ++ sem]
      | none => [])

/-- `FunctionDecl` node.  `codeBlock` is the pre-rendered body (`none` for a
forward declaration); `callees` and `usedDeclIdents` carry the call- and
use-graph edges the reference analyzer traverses. -/
structure FunctionDeclNode where
  flags : Flags := {}
  line : Nat := 0
  ident : String := ""
  returnType : String := ""
  parameters : List ParamNode := []
  semantic : Option String := none
  codeBlock : Option (List String) := none
  callees : List String := []
  usedDeclIdents : List String := []
  deriving DecidableEq

/-- `HLSLGenerator::WriteFunction` (1070-1101). -/
def writeFunction (ctx : GenCtx) (ast : FunctionDeclNode) : List String :=
  [ast.returnType, " " ++ ast.ident ++ "("]
  ++ joinSep ", " (ast.parameters.map writeParameter)
  ++ [")"]
  ++ (match ast.semantic with
      | some sem => [" : " ++ sem]
      | none => [])
  ++ (match ast.codeBlock with
      | some body => ["\x7b"] ++ body ++ ["\x7d"]
      | none => [";"])

/-! Per-stage layout records of the `Program` root node (`maxTessFactor` is a
float in the source and is carried in its printed form). -/

structure LayoutTessControlShader where
  outputControlPoints : Nat := 0
  maxTessFactor : String := "0"
  patchConstFunction : Option String := none
  deriving DecidableEq

structure LayoutTessEvaluationShader where
  domainType : String := ""
  partitioning : String := ""
  outputTopology : String := ""
  deriving DecidableEq

structure LayoutGeometryShader where
  maxVertices : Nat := 0
  deriving DecidableEq

structure LayoutFragmentShader where
  earlyDepthStencil : Bool := false
  deriving DecidableEq

structure LayoutComputeShader where
  numThreadsX : Nat := 1
  numThreadsY : Nat := 1
  numThreadsZ : Nat := 1
  deriving DecidableEq

structure ProgramLayouts where
  layoutTessControl : LayoutTessControlShader := {}
  layoutTessEvaluation : LayoutTessEvaluationShader := {}
  layoutGeometry : LayoutGeometryShader := {}
  layoutFragment : LayoutFragmentShader := {}
  layoutCompute : LayoutComputeShader := {}
  deriving DecidableEq

/-- `HLSLGenerator::WriteGlobalLayouts` and its per-target helpers (776-835);
attribute-value keyword tables live in HLSLKeywords.cpp (not among the
sources), so the layout fields carry the keywords directly. -/
def writeGlobalLayouts (ctx : GenCtx) (p : ProgramLayouts) : List String :=
  match ctx.shaderTarget with
  | .TessellationControlShader =>
    ["[outputcontrolpoints(" ++ toString p.layoutTessControl.outputControlPoints ++ ")]",
     "[maxtessfactor(" ++ p.layoutTessControl.maxTessFactor ++ ")]"]
    ++ (match p.layoutTessControl.patchConstFunction with
        | some f => ["[patchconstantfunc(\"" ++ f ++ "\")]"]
        | none => [])
  | .TessellationEvaluationShader =>
    ["[domain(" ++ p.layoutTessEvaluation.domainType ++ ")]",
     "[partitioning(" ++ p.layoutTessEvaluation.partitioning ++ ")]",
     "[outputtopology(\"" ++ p.layoutTessEvaluation.outputTopology ++ "\")]"]
  | .GeometryShader =>
    ["[maxvertexcount(" ++ toString p.layoutGeometry.maxVertices ++ ")]"]
  | .FragmentShader =>
    if p.layoutFragment.earlyDepthStencil then ["[early_fragment_tests]"] else []
  | .ComputeShader =>
    ["[numthreads(" ++ toString p.layoutCompute.numThreadsX ++ ", "
      ++ toString p.layoutCompute.numThreadsY ++ ", "
      ++ toString p.layoutCompute.numThreadsZ ++ ")]"]
  | _ => []

/-- `HLSLGenerator::VisitFunctionDecl` (226-255): unreachable functions are
skipped (with an optional warning); a reachable function with an invalid
control path is a fatal error; otherwise the line mark, the entry point's
global layouts, and the function itself are written. -/
def visitFunctionDecl (ctx : GenCtx) (layouts : ProgramLayouts)
    (ast : FunctionDeclNode) : EmitOut :=
  if !ast.flags.isReachable then
    { reports :=
        if ctx.warnBasic && ast.flags.hasNonReturnControlPath then
          [Report.mk .Warning R_InvalidControlPathInUnrefFunc]
        else [] }
  else if ast.flags.hasNonReturnControlPath then
    { fatal := some R_InvalidControlPathInFunc }
  else
    { out := writeLineMark ctx ast.line
        ++ (if ast.flags.isEntryPoint then writeGlobalLayouts ctx layouts else [])
        ++ writeFunction { ctx with insideFunctionDecl := true } ast }

/-- `UniformBufferDecl` node.  `commonStorageLayoutDerived` models the
layout field that `DeriveCommonStorageLayout` computes into the node. -/
structure UniformBufferDeclNode where
  flags : Flags := {}
  line : Nat := 0
  ident : String := ""
  varMembers : List VarDeclStmntNode := []
  commonStorageLayoutDerived : Bool := false
  deriving DecidableEq

/-- Modelled from the spec: `UniformBufferDecl::DeriveCommonStorageLayout`
(AST.cpp, not among the sources) computes the buffer's common storage layout
from its members and stores it in the declaration node; the model records
that this layout field has been (re)computed. -/
def deriveCommonStorageLayout (ast : UniformBufferDeclNode) : UniformBufferDeclNode :=
  { ast with commonStorageLayoutDerived := true }

/-- `HLSLGenerator::VisitUniformBufferDecl` (257-286): gate on reachability,
write the line mark, derive the common storage layout into the node, then
write the `cbuffer` header and members.  The node update is returned alongside
the emission. -/
def visitUniformBufferDecl (ctx : GenCtx) (ast : UniformBufferDeclNode) :
    UniformBufferDeclNode × EmitOut :=
  if !ast.flags.isReachable then
    (ast, {})
  else
    (deriveCommonStorageLayout ast,
     { out := writeLineMark ctx ast.line
         ++ ["cbuffer " ++ ast.ident, "\x7b"]
         ++ (ast.varMembers.map
              (visitVarDeclStmnt { ctx with insideUniformBufferDecl := true })).flatten
         ++ ["\x7d"] })

structure BufferDeclNode where
  ident : String := ""
  arrayDims : List Nat := []
  deriving DecidableEq

/-- `HLSLGenerator::WriteBufferDecl` (1215-1219). -/
def writeBufferDecl (b : BufferDeclNode) : List String :=
  [b.ident] ++ b.arrayDims.map (fun d => "[" ++ toString d ++ "]")

/-- `BufferDeclStmnt` node; `typeName` is the rendered buffer type denoter. -/
structure BufferDeclStmntNode where
  flags : Flags := {}
  typeName : String := ""
  bufferDecls : List BufferDeclNode := []
  deriving DecidableEq

/-- `HLSLGenerator::VisitBufferDeclStmnt` (288-308). -/
def visitBufferDeclStmnt (ast : BufferDeclStmntNode) : List String :=
  if ast.flags.isReachable then
    [ast.typeName, " "] ++ joinSep ", " (ast.bufferDecls.map writeBufferDecl) ++ [";"]
  else []

structure SamplerDeclNode where
  samplerType : String := ""
  ident : String := ""
  arrayDims : List Nat := []
  deriving DecidableEq

/-- `HLSLGenerator::WriteSamplerDecl` (1223-1239). -/
def writeSamplerDecl (s : SamplerDeclNode) : List String :=
  [s.samplerType ++ " " ++ s.ident]
  ++ s.arrayDims.map (fun d => "[" ++ toString d ++ "]")
  ++ [";"]

structure SamplerDeclStmntNode where
  flags : Flags := {}
  samplerDecls : List SamplerDeclNode := []
  deriving DecidableEq

/-- `HLSLGenerator::VisitSamplerDeclStmnt` (310-317). -/
def visitSamplerDeclStmnt (ast : SamplerDeclStmntNode) : List String :=
  if ast.flags.isReachable then (ast.samplerDecls.map writeSamplerDecl).flatten
  else []

/-- `AliasDeclStmnt` node: an alias statement optionally carrying a structure
declaration. -/
structure AliasDeclStmntNode where
  flags : Flags := {}
  line : Nat := 0
  structDecl : Option StructDeclNode := none
  deriving DecidableEq

/-- `HLSLGenerator::VisitAliasDeclStmnt` (379-391): writes the carried
structure declaration (if any, and not anonymous), with no reachability
gate. -/
def visitAliasDeclStmnt (ctx : GenCtx) (ast : AliasDeclStmntNode) : List String :=
  match ast.structDecl with
  | some sd =>
    if sd.ident ≠ "" then
      writeLineMark ctx ast.line ++ writeStructDecl ctx sd true
    else []
  | none => []

/-- The declaration object a `BasicDeclStmnt` wraps. -/
inductive DeclObject
  | structObj (s : StructDeclNode)
  | funcObj (f : FunctionDeclNode)
  deriving DecidableEq

structure BasicDeclStmntNode where
  flags : Flags := {}
  line : Nat := 0
  declObject : DeclObject
  deriving DecidableEq

/-- `HLSLGenerator::VisitBasicDeclStmnt` (393-413). -/
def visitBasicDeclStmnt (ctx : GenCtx) (layouts : ProgramLayouts)
    (ast : BasicDeclStmntNode) : EmitOut :=
  if ast.flags.isReachable then
    match ast.declObject with
    | .structObj sd => { out := writeLineMark ctx ast.line ++ writeStructDecl ctx sd true }
    | .funcObj f => visitFunctionDecl ctx layouts f
  else {}

/-- A global program statement, one variant per declaration-statement visitor
of the generator. -/
inductive GlobalStmnt
  | functionDecl (f : FunctionDeclNode)
  | uniformBufferDecl (u : UniformBufferDeclNode)
  | bufferDeclStmnt (b : BufferDeclStmntNode)
  | samplerDeclStmnt (s : SamplerDeclStmntNode)
  | varDeclStmnt (v : VarDeclStmntNode)
  | aliasDeclStmnt (a : AliasDeclStmntNode)
  | basicDeclStmnt (b : BasicDeclStmntNode)
  deriving DecidableEq

/-- The visitor dispatch for one global statement; returns the possibly
updated node together with its emission. -/
def visitGlobalStmnt (ctx : GenCtx) (layouts : ProgramLayouts) :
    GlobalStmnt → GlobalStmnt × EmitOut
  | .functionDecl f => (.functionDecl f, visitFunctionDecl ctx layouts f)
  | .uniformBufferDecl u =>
    let r := visitUniformBufferDecl ctx u
    (.uniformBufferDecl r.1, r.2)
  | .bufferDeclStmnt b => (.bufferDeclStmnt b, { out := visitBufferDeclStmnt b })
  | .samplerDeclStmnt s => (.samplerDeclStmnt s, { out := visitSamplerDeclStmnt s })
  | .varDeclStmnt v => (.varDeclStmnt v, { out := visitVarDeclStmnt ctx v })
  | .aliasDeclStmnt a => (.aliasDeclStmnt a, { out := visitAliasDeclStmnt ctx a })
  | .basicDeclStmnt b => (.basicDeclStmnt b, visitBasicDeclStmnt ctx layouts b)

/-! ## The program node and the traversal -/

/-- The `Program` root: global statements and the per-stage layout records. -/
structure ProgramNode where
  globalStmnts : List GlobalStmnt := []
  layouts : ProgramLayouts := {}
  deriving DecidableEq

/-- The function declaration a global statement carries, if any (functions
appear directly or wrapped in a `BasicDeclStmnt`). -/
def GlobalStmnt.asFunctionDecl : GlobalStmnt → Option FunctionDeclNode
  | .functionDecl f => some f
  | .basicDeclStmnt b =>
    match b.declObject with
    | .funcObj f => some f
    | _ => none
  | _ => none

def allFunctions (p : ProgramNode) : List FunctionDeclNode :=
  p.globalStmnts.filterMap GlobalStmnt.asFunctionDecl

/-- `Program::entryPointRef`: the back-reference the analyzer installs to the
function it flagged as the entry point. -/
def entryPointRef (p : ProgramNode) : Option FunctionDeclNode :=
  (allFunctions p).find? (fun f => f.flags.isEntryPoint)

/-- `HLSLGenerator::WriteGlobalUniformsParameter` (856-873); parameters carry
exactly one declarator in the model, so the `R_InvalidParamVarCount` error
path collapses. -/
def writeGlobalUniformsParameter (p : ParamNode) : List String :=
  [p.typeName, " ", p.ident, ";"]

/-- `HLSLGenerator::WriteGlobalUniforms` (839-854): the uniform parameters of
the entry point are written before the global statements. -/
def writeGlobalUniforms (p : ProgramNode) : List String :=
  match entryPointRef p with
  | some entry =>
    ((entry.parameters.filter (fun q => q.isUniform)).map writeGlobalUniformsParameter).flatten
  | none => []

/-- `WriteStmntList` over the global statements: each statement is visited in
order; a fatal error (a thrown report) stops the traversal, leaving the
remaining nodes untouched. -/
def visitGlobalStmnts (ctx : GenCtx) (layouts : ProgramLayouts) :
    List GlobalStmnt → List GlobalStmnt × EmitOut
  | [] => ([], {})
  | s :: rest =>
    let r := visitGlobalStmnt ctx layouts s
    match r.2.fatal with
    | some _ => (r.1 :: rest, r.2)
    | none =>
      let rr := visitGlobalStmnts ctx layouts rest
      (r.1 :: rr.1, r.2.seq rr.2)

/-- `HLSLGenerator::VisitProgram` (119-126). -/
def visitProgram (ctx : GenCtx) (p : ProgramNode) : ProgramNode × EmitOut :=
  let uniforms := writeGlobalUniforms p
  let r := visitGlobalStmnts ctx p.layouts p.globalStmnts
  ({ p with globalStmnts := r.1 }, { r.2 with out := uniforms ++ r.2.out })

/-! ## The pre-generation AST passes (`HLSLGenerator::PreProcessAST`, 696-731)

`PreProcessAST` runs, in order, the struct-parameter analyzer, the
function-name converter and the reference analyzer; their implementations
(StructParameterAnalyzer.cpp, FuncNameConverter.cpp, ReferenceAnalyzer.cpp)
are not among the sources and are modelled from the spec, which specifies
that all three "operate in place on the decorated AST". -/

/-- Modelled from the spec: `StructParameterAnalyzer::MarkStructsFromEntryPoint`
(not among the sources) "marks structs that are used for purposes other than
entry-point IO".  The use edges are the `usedDeclIdents` lists of the
program's functions; a structure referenced there is marked. -/
def markStructsFromEntryPoint (p : ProgramNode) : ProgramNode :=
  let used := ((allFunctions p).map (fun f => f.usedDeclIdents)).flatten
  { p with globalStmnts := p.globalStmnts.map (fun s =>
      match s with
      | .basicDeclStmnt b =>
        match b.declObject with
        | .structObj sd =>
          if used.contains sd.ident then
            .basicDeclStmnt
              { b with declObject := .structObj { sd with isNonEntryPointParam := true } }
          else s
        | _ => s
      | _ => s) }

/-- Modelled from the spec: `FuncNameConverter` (not among the sources)
"uniquifies overloaded function names using name-mangling prefixes from the
configuration": a later function declaration whose identifier was already
seen is renamed apart with a mangled, position-disambiguated name. -/
def convertFuncName (nm : NameMangling) (seen : List String) (ident : String) : String :=
  if seen.contains ident then nm.temporaryPrefix ++ ident ++ toString seen.length
  else ident

def funcNameConvert (nm : NameMangling) :
    List GlobalStmnt → List String → List GlobalStmnt
  | [], _ => []
  | s :: rest, seen =>
    match s with
    | .functionDecl f =>
      .functionDecl { f with ident := convertFuncName nm seen f.ident }
        :: funcNameConvert nm rest (f.ident :: seen)
    | .basicDeclStmnt b =>
      match b.declObject with
      | .funcObj f =>
        .basicDeclStmnt
            { b with declObject := .funcObj { f with ident := convertFuncName nm seen f.ident } }
          :: funcNameConvert nm rest (f.ident :: seen)
      | _ => s :: funcNameConvert nm rest seen
    | _ => s :: funcNameConvert nm rest seen

/-- One step of the call-graph closure: add the callees of every member. -/
def reachableStep (g : List (String × List String)) (s : List String) : List String :=
  s ++ (((g.filter (fun e => s.contains e.1)).map (fun e => e.2)).flatten.filter
    (fun x => !s.contains x))

def reachableIter (g : List (String × List String)) : Nat → List String → List String
  | 0, s => s
  | n + 1, s => reachableIter g n (reachableStep g s)

def Flags.mark (f : Flags) (b : Bool) : Flags :=
  { f with isReachable := f.isReachable || b }

/-- Marking of one global statement given the reachable function identifiers
and the declaration identifiers used by reachable functions. -/
def markStmnt (reach used : List String) : GlobalStmnt → GlobalStmnt
  | .functionDecl f =>
    .functionDecl { f with flags := f.flags.mark (reach.contains f.ident) }
  | .uniformBufferDecl u =>
    .uniformBufferDecl { u with flags := u.flags.mark (used.contains u.ident) }
  | .bufferDeclStmnt b =>
    .bufferDeclStmnt
      { b with flags := b.flags.mark (b.bufferDecls.any (fun d => used.contains d.ident)) }
  | .samplerDeclStmnt s =>
    .samplerDeclStmnt
      { s with flags := s.flags.mark (s.samplerDecls.any (fun d => used.contains d.ident)) }
  | .varDeclStmnt v =>
    .varDeclStmnt
      { v with flags := v.flags.mark (v.varDecls.any (fun d => used.contains d.ident)) }
  | .aliasDeclStmnt a => .aliasDeclStmnt a
  | .basicDeclStmnt b =>
    match b.declObject with
    | .funcObj f =>
      .basicDeclStmnt
        { b with
          flags := b.flags.mark (reach.contains f.ident)
          declObject := .funcObj { f with flags := f.flags.mark (reach.contains f.ident) } }
    | .structObj sd =>
      .basicDeclStmnt
        { b with
          flags := b.flags.mark (used.contains sd.ident)
          declObject := .structObj sd }

/-- Modelled from the spec: `ReferenceAnalyzer::MarkReferencesFromEntryPoint`
(ReferenceAnalyzer.cpp, not among the sources; its header states it "marks
all functions which are used from the beginning of the shader entry point")
"starts at the entry-point node and transitively marks every declaration
reachable through calls, type uses, and member access"; declarations keep any
mark they already carry. -/
def markReferencesFromEntryPoint (p : ProgramNode) : ProgramNode :=
  match entryPointRef p with
  | none => p
  | some entry =>
    let g := (allFunctions p).map (fun f => (f.ident, f.callees))
    let reach := reachableIter g (g.length + 1) [entry.ident]
    let used :=
      (((allFunctions p).filter (fun f => reach.contains f.ident)).map
        (fun f => f.usedDeclIdents)).flatten
    { p with globalStmnts := p.globalStmnts.map (markStmnt reach used) }

/-- `HLSLGenerator::PreProcessAST` (696-701): struct-parameter analysis, then
function-name conversion, then reference marking. -/
def preProcessAST (nm : NameMangling) (p : ProgramNode) : ProgramNode :=
  let p1 := markStructsFromEntryPoint p
  let p2 := { p1 with globalStmnts := funcNameConvert nm p1.globalStmnts [] }
  markReferencesFromEntryPoint p2

/-- Modelled from the spec: `ToString (ShaderTarget)` (Targets.cpp, not among
the sources) names the shader stage for the generated header comment. -/
def shaderTargetToString : ShaderTarget → String
  | .Undefined => "Undefined"
  | .VertexShader => "Vertex Shader"
  | .TessellationControlShader => "Tessellation-Control Shader"
  | .TessellationEvaluationShader => "Tessellation-Evaluation Shader"
  | .GeometryShader => "Geometry Shader"
  | .FragmentShader => "Fragment Shader"
  | .ComputeShader => "Compute Shader"

/-- Modelled from the spec: `Warnings::Basic` is one bit of the warnings
bitmask (`Xsc.h` not among the sources); it is modelled as the lowest bit. -/
def warnEnabledBasic (w : Nat) : Bool :=
  w % 2 = 1

/-- `HLSLGenerator::GenerateCodePrimary` (54-107): store the output options,
require the entry-point back-reference, run the pre-generation AST passes,
write the header comments (`timeStamp` stands for `TimePoint()`), and visit
the program.  The resulting program state is returned alongside the
emission. -/
def hlslGenerateCodePrimary (inputDesc : ShaderInput) (outputDesc : ShaderOutput)
    (timeStamp : String) (p : ProgramNode) : ProgramNode × EmitOut :=
  let ctx : GenCtx :=
    { shaderTarget := inputDesc.shaderTarget
      versionOut := outputDesc.shaderVersion
      nameMangling := outputDesc.nameMangling
      allowExtensions := outputDesc.options.allowExtensions
      preserveComments := outputDesc.options.preserveComments
      separateShaders := outputDesc.options.separateShaders
      allowLineMarks := outputDesc.formatting.lineMarks
      compactWrappers := outputDesc.formatting.compactWrappers
      alwaysBracedScopes := outputDesc.formatting.alwaysBracedScopes
      warnBasic := warnEnabledBasic inputDesc.warnings }
  match entryPointRef p with
  | none => (p, { fatal := some R_EntryPointNotFound })
  | some _ =>
    let p1 := preProcessAST outputDesc.nameMangling p
    let header :=
      (if inputDesc.entryPoint = "" then
        ["// HLSL " ++ shaderTargetToString inputDesc.shaderTarget]
      else
        ["// HLSL " ++ shaderTargetToString inputDesc.shaderTarget
          ++ " \"" ++ inputDesc.entryPoint ++ "\""])
      ++ ["// Generated by XShaderCompiler", "// " ++ timeStamp]
    let r := visitProgram ctx p1
    (r.1, { r.2 with out := header ++ r.2.out })

/-! ## Literal emission (`HLSLGenerator::WriteLiteral`, 1338-1368) -/

/-- The scalar, vector and matrix base data types consulted by
`WriteLiteral` (the full `DataType` enumeration lives in ASTEnums.h, not
among the sources; the classification helpers below are modelled from the
spec's type taxonomy). -/
inductive DataType
  | Bool | Int | UInt | Half | Float | Double
  | Float2 | Float3 | Float4
  | Int2 | Int3 | Int4
  | UInt2 | UInt3 | UInt4
  | Float2x2 | Float3x3 | Float4x4
  deriving DecidableEq

/-- Modelled from the spec: `IsScalarType` (ASTEnums.cpp, not among the
sources). -/
def IsScalarType : DataType → Bool
  | .Bool => true
  | .Int => true
  | .UInt => true
  | .Half => true
  | .Float => true
  | .Double => true
  | _ => false

/-- Modelled from the spec: `IsVectorType` (ASTEnums.cpp, not among the
sources). -/
def IsVectorType : DataType → Bool
  | .Float2 => true
  | .Float3 => true
  | .Float4 => true
  | .Int2 => true
  | .Int3 => true
  | .Int4 => true
  | .UInt2 => true
  | .UInt3 => true
  | .UInt4 => true
  | _ => false

/-- Modelled from the spec: `DataTypeToString` (ASTEnums.cpp, not among the
sources) renders the HLSL keyword of a data type. -/
def DataTypeToString : DataType → String
  | .Bool => "bool"
  | .Int => "int"
  | .UInt => "uint"
  | .Half => "half"
  | .Float => "float"
  | .Double => "double"
  | .Float2 => "float2"
  | .Float3 => "float3"
  | .Float4 => "float4"
  | .Int2 => "int2"
  | .Int3 => "int3"
  | .Int4 => "int4"
  | .UInt2 => "uint2"
  | .UInt3 => "uint3"
  | .UInt4 => "uint4"
  | .Float2x2 => "float2x2"
  | .Float3x3 => "float3x3"
  | .Float4x4 => "float4x4"

/-- `value.back()` (guarded by non-emptiness at every use). -/
def strBack (s : String) : Char :=
  s.data.getLastD ' '

/-- `value.find_first_of(cs) != std::string::npos` for a single character. -/
def strContains (s : String) (c : Char) : Bool :=
  s.data.any (fun x => x == c)

/-- `HLSLGenerator::WriteLiteral` (1338-1368): scalar unsigned literals get a
`u` suffix unless one is present; scalar float literals get `.0` inserted
when the text has none of `.`, `e`, `E`, then an `f` suffix; vector literals
become a constructor call; anything else is an error (`none`). -/
def writeLiteral (value : String) (dataType : DataType) : Option String :=
  if IsScalarType dataType then
    some (value ++
      (match dataType with
       | .UInt =>
         if value ≠ "" && strBack value ≠ 'u' && strBack value ≠ 'U' then "u" else ""
       | .Float =>
         (if !(strContains value '.' || strContains value 'e' || strContains value 'E')
          then ".0" else "") ++ "f"
       | _ => ""))
  else if IsVectorType dataType then
    some (DataTypeToString dataType ++ "(" ++ value ++ ")")
  else
    none

/-! ## The CLI shell (`Shell.cpp`, src/unnamed/part_001; the older revision of
the same file is src/unnamed/part_000) -/

/-- The per-session shell state consulted by `Shell::Compile`. -/
structure ShellState where
  inputDesc : ShaderInput := {}
  outputDesc : ShaderOutput := {}
  outputFilename : String := ""
  searchPaths : List String := []
  verbose : Bool := false
  pauseApp : Bool := false
  showReflection : Bool := false
  actionPerformed : Bool := false
  deriving DecidableEq

/-- Index of the last character satisfying `p` (`std::string::find_last_of`). -/
def findLastIdx (p : Char → Bool) (l : List Char) : Option Nat :=
  ((List.range l.length).filter (fun i => p (l.getD i ' '))).getLast?

/-- `GetFilePart` (part_001, 173-177), identical to `ExtractFilename`
(part_000, 125-129): the string up to its last `.`, or the whole string when
it has none. -/
def GetFilePart (s : String) : String :=
  match findLastIdx (fun c => c == '.') s.data with
  | none => s
  | some i => String.mk (s.data.take i)

/-- `TargetToExtension` (part_001, 186-199): every named shader stage has its
conventional extension; anything else - including the undefined target -
falls through to `"glsl"`. -/
def TargetToExtension : ShaderTarget → String
  | .VertexShader => "vert"
  | .TessellationControlShader => "tesc"
  | .TessellationEvaluationShader => "tese"
  | .GeometryShader => "geom"
  | .FragmentShader => "frag"
  | .ComputeShader => "comp"
  | .Undefined => "glsl"

/-- `Shell::GetDefaultOutputFilename` (part_001, 201-204). -/
def GetDefaultOutputFilename (state : ShellState) (filename : String) : String :=
  GetFilePart filename ++ "." ++ state.inputDesc.entryPoint ++ "."
    ++ TargetToExtension state.inputDesc.shaderTarget

/-- The output-filename selection of `Shell::Compile` (part_001, 210-216):
an empty configured name selects the default; otherwise every `*` in the
configured name is replaced by the default (`Replace` from Helper.h). -/
def shellCompileOutputFilename (state : ShellState) (filename : String) : String :=
  let defaultOutputFilename := GetDefaultOutputFilename state filename
  if state.outputFilename = "" then defaultOutputFilename
  else state.outputFilename.replace "*" defaultOutputFilename

/-- The output-filename selection of the older `Shell::Compile` revision
(part_000, 147-156): the entry point is appended only when non-empty, and no
`*` substitution exists. -/
def shellCompileOutputFilenameLegacy (state : ShellState) (filename : String) : String :=
  if state.outputFilename = "" then
    GetFilePart filename
      ++ (if state.inputDesc.entryPoint ≠ "" then "." ++ state.inputDesc.entryPoint else "")
      ++ "." ++ TargetToExtension state.inputDesc.shaderTarget
  else state.outputFilename

/-! ## Predicates used to state the claims -/

/-- The name-mangling configurations `ValidateArguments` rejects: an empty
reserved-word or temporary prefix, the five overlaps checked at lines
103-110, or a non-empty namespace prefix overlapping one of the other four
(lines 112-121).  Equality of the input and output prefixes is not among the
checked pairs. -/
def ManglingViolation (nm : NameMangling) : Prop :=
  nm.reservedWordPrefix = "" ∨ nm.temporaryPrefix = ""
  ∨ nm.reservedWordPrefix = nm.inputPrefix
  ∨ nm.reservedWordPrefix = nm.outputPrefix
  ∨ nm.reservedWordPrefix = nm.temporaryPrefix
  ∨ nm.temporaryPrefix = nm.inputPrefix
  ∨ nm.temporaryPrefix = nm.outputPrefix
  ∨ (nm.namespacePrefix ≠ ""
      ∧ (nm.namespacePrefix = nm.inputPrefix
        ∨ nm.namespacePrefix = nm.outputPrefix
        ∨ nm.namespacePrefix = nm.reservedWordPrefix
        ∨ nm.namespacePrefix = nm.temporaryPrefix))

instance (nm : NameMangling) : Decidable (ManglingViolation nm) := by
  unfold ManglingViolation
  infer_instance

/-- The six global declaration-statement kinds whose emission the claim says
is gated on the reachable flag (all of them except alias statements). -/
def reachabilityGated : GlobalStmnt → Bool
  | .aliasDeclStmnt _ => false
  | _ => true

/-- The `isReachable` flag of a global statement's node. -/
def stmntReachable : GlobalStmnt → Bool
  | .functionDecl f => f.flags.isReachable
  | .uniformBufferDecl u => u.flags.isReachable
  | .bufferDeclStmnt b => b.flags.isReachable
  | .samplerDeclStmnt s => s.flags.isReachable
  | .varDeclStmnt v => v.flags.isReachable
  | .aliasDeclStmnt a => a.flags.isReachable
  | .basicDeclStmnt b => b.flags.isReachable

/-- Forgetting the one layout field the emission pass recomputes (the derived
common storage layout of uniform buffers). -/
def eraseStorageLayout : GlobalStmnt → GlobalStmnt
  | .uniformBufferDecl u => .uniformBufferDecl { u with commonStorageLayoutDerived := false }
  | s => s

/-! ## Concrete fixtures used by witnesses and counterexamples -/

/-- A stage environment in which every pipeline stage succeeds. -/
def allOkEnv : StageEnv :=
  { preprocessResult := some "p" }

/-- A stage environment in which code generation fails. -/
def genFailEnv : StageEnv :=
  { preprocessResult := some "p", generatorResult := false }

/-- A well-formed HLSL input descriptor. -/
def hlslInput : ShaderInput :=
  { sourceCode := some "s" }

/-- An input descriptor with a null input stream. -/
def nullStreamInput : ShaderInput :=
  {}

/-- A GLSL-family (non-HLSL) input descriptor. -/
def glslInput : ShaderInput :=
  { sourceCode := some "s", shaderVersion := .GLSL }

/-- A well-formed output descriptor writing to the caller's sink. -/
def callerOutput : ShaderOutput :=
  { sourceCode := some Sink.caller }

/-- A preprocess-only output descriptor. -/
def preprocessOnlyOutput : ShaderOutput :=
  { sourceCode := some Sink.caller, options := { preprocessOnly := true } }

/-- A validation-only output descriptor whose output stream is null. -/
def c1Output : ShaderOutput :=
  { sourceCode := none, options := { validateOnly := true } }

/-- An output descriptor whose input and output name-mangling prefixes are the
same string (all other prefixes distinct, namespace prefix empty). -/
def c2Output : ShaderOutput :=
  { sourceCode := some Sink.caller,
    nameMangling := { inputPrefix := "x", outputPrefix := "x", reservedWordPrefix := "r",
                      temporaryPrefix := "t", namespacePrefix := "" } }

/-- An output descriptor whose reserved-word and temporary prefixes coincide. -/
def c2BadOutput : ShaderOutput :=
  { sourceCode := some Sink.caller,
    nameMangling := { reservedWordPrefix := "p", temporaryPrefix := "p" } }

/-- An output descriptor with `autoBinding` set but `explicitBinding` clear. -/
def c6Output : ShaderOutput :=
  { sourceCode := some Sink.caller, options := { autoBinding := true } }

/-- A one-function program whose entry point is flagged but not yet marked
reachable (the state in which the analyzer hands the program over). -/
def c5Program : ProgramNode :=
  { globalStmnts := [GlobalStmnt.functionDecl
      { flags := { isEntryPoint := true }, ident := "main", returnType := "float4",
        semantic := some "SV_Target",
        codeBlock := some ["return float4(1, 0, 0, 1);"] }] }

/-- A shell state with an entry point and fragment target configured and no
output filename. -/
def c9State : ShellState :=
  { inputDesc := { entryPoint := "main", shaderTarget := .FragmentShader } }

/-! ## Basic lemmas about the driver -/

theorem writeTo_sink (os : Option Sink) (t : String) :
    ∀ w ∈ writeTo os t, os = some w.1 := by
  intro w hw
  cases os with
  | none => simp [writeTo] at hw
  | some s =>
    simp [writeTo] at hw
    subst hw
    rfl

theorem outputDescCopy_nameMangling (o : ShaderOutput) :
    (outputDescCopy o).nameMangling = o.nameMangling := by
  by_cases hv : o.options.validateOnly <;> by_cases ha : o.options.autoBinding <;>
    simp [outputDescCopy, hv, ha]

theorem outputDescCopy_preprocessOnly (o : ShaderOutput) :
    (outputDescCopy o).options.preprocessOnly = o.options.preprocessOnly := by
  by_cases hv : o.options.validateOnly <;> by_cases ha : o.options.autoBinding <;>
    simp [outputDescCopy, hv, ha]

theorem outputDescCopy_sink_of_validateOnly (o : ShaderOutput)
    (h : o.options.validateOnly = true) :
    (outputDescCopy o).sourceCode = some Sink.dummy := by
  by_cases ha : o.options.autoBinding <;> simp [outputDescCopy, h, ha]

theorem outputDescCopy_sink_of_not_validateOnly (o : ShaderOutput)
    (h : o.options.validateOnly = false) :
    (outputDescCopy o).sourceCode = o.sourceCode := by
  by_cases ha : o.options.autoBinding <;> simp [outputDescCopy, h, ha]

theorem compileShaderPrimary_writes_sink (env : StageEnv) (log : Bool)
    (i : ShaderInput) (o : ShaderOutput) (r : Bool) :
    ∀ w ∈ (compileShaderPrimary env log i o r).writes, o.sourceCode = some w.1 := by
  intro w hw
  unfold compileShaderPrimary at hw
  repeat' split at hw
  all_goals dsimp only at hw
  repeat' split at hw
  all_goals first
    | exact writeTo_sink _ _ w (by simpa using hw)
    | simp at hw

theorem compileShaderPublic_writes (env : StageEnv) (log : Bool)
    (i : ShaderInput) (o : ShaderOutput) (r : Bool) :
    (compileShaderPublic env log i o r).writes = (compileShader env log i o r).writes := by
  unfold compileShaderPublic
  dsimp only
  split <;> rfl

theorem callerBytes_of_dummy (t : CompileTrace)
    (h : ∀ w ∈ t.writes, w.1 = Sink.dummy) : callerBytes t = "" := by
  unfold callerBytes
  have hf : t.writes.filter (fun w => w.1.isCaller) = [] := by
    rw [List.filter_eq_nil_iff]
    intro a ha
    rw [h a ha]
    simp [Sink.isCaller]
  rw [hf]
  rfl

/-! ## Claim C3 -/

/-- C3: for every compilation run with `validateOnly` enabled, the
caller-supplied output sink receives zero bytes, regardless of whether the
compilation succeeds or fails: `CompileShader` replaces the output stream of
its internal descriptor copy with the dummy stream before any stage runs, and
every pipeline write goes through that copy's stream. -/
theorem c3_validate_only_never_writes (env : StageEnv) (log : Bool)
    (inputDesc : ShaderInput) (outputDesc : ShaderOutput) (reflectionData : Bool)
    (h : outputDesc.options.validateOnly = true) :
    callerBytes (compileShaderPublic env log inputDesc outputDesc reflectionData) = "" := by
  apply callerBytes_of_dummy
  intro w hw
  rw [compileShaderPublic_writes] at hw
  unfold compileShader at hw
  split at hw
  · simp at hw
  · have hs := compileShaderPrimary_writes_sink env log inputDesc
      (outputDescCopy outputDesc) reflectionData w hw
    rw [outputDescCopy_sink_of_validateOnly outputDesc h] at hs
    exact (Option.some.inj hs).symm

/-- Witness for C3: a concrete validation-only run (with succeeding stages)
writes nothing to the caller's sink. -/
theorem c3_validate_only_never_writes_witness :
    ({ sourceCode := some Sink.caller, options := { validateOnly := true } }
        : ShaderOutput).options.validateOnly = true
    ∧ callerBytes (compileShaderPublic
        { preprocessResult := some "p", generatorOutput := "gen" } true
        { sourceCode := some "s" }
        { sourceCode := some Sink.caller, options := { validateOnly := true } }
        false) = "" :=
  ⟨rfl,
   c3_validate_only_never_writes
    { preprocessResult := some "p", generatorOutput := "gen" } true
    { sourceCode := some "s" }
    { sourceCode := some Sink.caller, options := { validateOnly := true } }
    false rfl⟩

/-! ## Claims C1 and C2: argument validation -/

theorem validateArguments_error_of_invalid (i : ShaderInput) (o : ShaderOutput)
    (h : i.sourceCode.isNone = true ∨ o.sourceCode.isNone = true
      ∨ ManglingViolation o.nameMangling) :
    ∃ msg, validateArguments i o = .error msg := by
  unfold validateArguments
  dsimp only
  repeat' split
  all_goals first
    | exact ⟨_, rfl⟩
    | (exfalso
       rcases h with h | h | h
       · simp_all
       · simp_all
       · unfold ManglingViolation at h
         tauto)

theorem compileShaderPrimary_of_error (env : StageEnv) (log : Bool)
    (i : ShaderInput) (o : ShaderOutput) (r : Bool) (msg : String)
    (h : validateArguments i o = .error msg) :
    compileShaderPrimary env log i o r = { exception := some msg } := by
  unfold compileShaderPrimary
  rw [h]

/-- C1 (counterexample): a call whose output stream is null - invalid per the
claim - nevertheless returns `true` when `validateOnly` is set, because the
driver substitutes its internal dummy stream before validation runs. -/
theorem c1_null_output_with_validate_only_returns_true :
    c1Output.sourceCode = none
    ∧ (compileShaderPublic allOkEnv true hlslInput c1Output false).returned = true := by
  decide

/-- C1 (amended): for every call whose descriptors are invalid - null input
stream; null output stream except when `validateOnly` substitutes the internal
sink before validation; empty reservedWord or temporary prefix; or overlapping
name-mangling prefixes among the pairs the validator checks - the public
compile function returns false, the diagnostic is delivered as an error Report
into the log sink, and no exception escapes to the caller. -/
theorem c1_invalid_descriptors_return_false_with_report (env : StageEnv) (log : Bool)
    (i : ShaderInput) (o : ShaderOutput) (r : Bool)
    (hlog : log = true)
    (h : i.sourceCode.isNone = true
      ∨ (o.sourceCode.isNone = true ∧ o.options.validateOnly = false)
      ∨ ManglingViolation o.nameMangling) :
    (compileShaderPublic env log i o r).returned = false
    ∧ (compileShaderPublic env log i o r).exception = none
    ∧ ∃ rep ∈ (compileShaderPublic env log i o r).reports,
        rep.reportType = ReportTypes.Error := by
  subst hlog
  unfold compileShaderPublic compileShader
  by_cases hearly : IsLanguageHLSL i.shaderVersion = false ∧ o.options.preprocessOnly = false
  case pos =>
    obtain ⟨h1, h2⟩ := hearly
    simp [h1, h2, submitIf]
  case neg =>
    have hcopy : i.sourceCode.isNone = true
        ∨ (outputDescCopy o).sourceCode.isNone = true
        ∨ ManglingViolation (outputDescCopy o).nameMangling := by
      rcases h with h | ⟨h1, h2⟩ | h
      · exact Or.inl h
      · refine Or.inr (Or.inl ?_)
        rw [outputDescCopy_sink_of_not_validateOnly o h2]
        exact h1
      · rw [outputDescCopy_nameMangling]
        exact Or.inr (Or.inr h)
    obtain ⟨msg, herr⟩ := validateArguments_error_of_invalid i (outputDescCopy o) hcopy
    have hrun := compileShaderPrimary_of_error env true i (outputDescCopy o) r msg herr
    split
    · simp [submitIf]
    · rw [hrun]
      simp [submitIf]

/-- Witness for C1 (amended): a call with a null input stream returns false
with an error report and no exception. -/
theorem c1_invalid_descriptors_return_false_with_report_witness :
    nullStreamInput.sourceCode.isNone = true
    ∧ ((compileShaderPublic allOkEnv true nullStreamInput callerOutput false).returned = false
      ∧ (compileShaderPublic allOkEnv true nullStreamInput callerOutput false).exception = none
      ∧ ∃ rep ∈ (compileShaderPublic allOkEnv true nullStreamInput callerOutput false).reports,
          rep.reportType = ReportTypes.Error) :=
  ⟨rfl,
   c1_invalid_descriptors_return_false_with_report allOkEnv true nullStreamInput callerOutput
    false rfl (Or.inl rfl)⟩

/-- C2 (counterexample): an output descriptor whose input and output
name-mangling prefixes are the same string - two of the five prefixes equal -
is accepted: the compile function raises no argument error and the run
succeeds, because `ValidateArguments` does not compare the input prefix with
the output prefix. -/
theorem c2_equal_input_output_prefixes_accepted :
    c2Output.nameMangling.inputPrefix = c2Output.nameMangling.outputPrefix
    ∧ (compileShader allOkEnv true hlslInput c2Output false).exception = none
    ∧ (compileShader allOkEnv true hlslInput c2Output false).returned = true := by
  decide

/-- C2 (amended): for every output descriptor in which the reservedWord prefix
equals the input, output or temporary prefix, or the temporary prefix equals
the input or output prefix, or a non-empty namespace prefix equals any of the
other four, or the reservedWord or temporary prefix is empty, the compile
function raises an argument error before any pipeline stage runs (provided
the call is not rejected earlier as non-HLSL input without `preprocessOnly`);
equality of the input and output prefixes alone is not rejected. -/
theorem c2_mangling_violation_raises_argument_error (env : StageEnv) (log : Bool)
    (i : ShaderInput) (o : ShaderOutput) (r : Bool)
    (hreach : IsLanguageHLSL i.shaderVersion = true ∨ o.options.preprocessOnly = true)
    (h : ManglingViolation o.nameMangling) :
    ∃ msg, compileShader env log i o r = { exception := some msg } := by
  have hm : ManglingViolation (outputDescCopy o).nameMangling := by
    rw [outputDescCopy_nameMangling]; exact h
  obtain ⟨msg, herr⟩ := validateArguments_error_of_invalid i (outputDescCopy o)
    (Or.inr (Or.inr hm))
  refine ⟨msg, ?_⟩
  unfold compileShader
  rcases hreach with hr | hr <;>
    simp [hr, compileShaderPrimary_of_error env log i (outputDescCopy o) r msg herr]

/-- Witness for C2 (amended): equal reserved-word and temporary prefixes make
the compile function throw the argument error with no stage run (the resulting
trace is the bare exception trace). -/
theorem c2_mangling_violation_raises_argument_error_witness :
    ManglingViolation c2BadOutput.nameMangling
    ∧ ∃ msg, compileShader allOkEnv true hlslInput c2BadOutput false
        = { exception := some msg } :=
  ⟨by decide,
   c2_mangling_violation_raises_argument_error allOkEnv true hlslInput c2BadOutput false
    (Or.inl rfl) (by decide)⟩

/-! ## Claim C4: reachability gates declaration emission -/

/-- C4: during code generation, a global-scope declaration whose AST node is
not flagged reachable is never emitted: for every function, uniform-buffer,
buffer, sampler, variable and basic declaration statement at global scope
(the generator's global traversal has no enclosing function or structure),
the generator emits output for it only if its `isReachable` flag is set. -/
theorem c4_unreachable_global_decl_not_emitted
    (ctx : GenCtx) (layouts : ProgramLayouts) (s : GlobalStmnt)
    (hfn : ctx.insideFunctionDecl = false) (hst : ctx.insideStructDecl = false)
    (hkind : reachabilityGated s = true) (hreach : stmntReachable s = false) :
    (visitGlobalStmnt ctx layouts s).2.out = [] := by
  cases s with
  | functionDecl f =>
    simp [stmntReachable] at hreach
    simp [visitGlobalStmnt, visitFunctionDecl, hreach]
  | uniformBufferDecl u =>
    simp [stmntReachable] at hreach
    simp [visitGlobalStmnt, visitUniformBufferDecl, hreach]
  | bufferDeclStmnt b =>
    simp [stmntReachable] at hreach
    simp [visitGlobalStmnt, visitBufferDeclStmnt, hreach]
  | samplerDeclStmnt sd =>
    simp [stmntReachable] at hreach
    simp [visitGlobalStmnt, visitSamplerDeclStmnt, hreach]
  | varDeclStmnt v =>
    simp [stmntReachable] at hreach
    simp [visitGlobalStmnt, visitVarDeclStmnt, hreach, hfn, hst]
  | aliasDeclStmnt a =>
    simp [reachabilityGated] at hkind
  | basicDeclStmnt b =>
    simp [stmntReachable] at hreach
    simp [visitGlobalStmnt, visitBasicDeclStmnt, hreach]

/-- Witness for C4: an unreachable function declaration at global scope emits
nothing. -/
theorem c4_unreachable_global_decl_not_emitted_witness :
    stmntReachable (GlobalStmnt.functionDecl {}) = false
    ∧ (visitGlobalStmnt {} {} (GlobalStmnt.functionDecl {})).2.out = [] :=
  ⟨rfl, c4_unreachable_global_decl_not_emitted {} {} (GlobalStmnt.functionDecl {})
    rfl rfl rfl rfl⟩

/-! ## Claim C5: does code generation mutate the AST? -/

/-- C5 (counterexample): the code-generation stage does mutate the AST - on a
one-function program whose entry point is not yet marked reachable, running
the generator changes the program (the pre-generation reference analyzer sets
the `isReachable` flag in place). -/
theorem c5_generator_mutates_ast :
    (hlslGenerateCodePrimary hlslInput callerOutput "(timestamp)" c5Program).1
      ≠ c5Program := by
  decide

theorem eraseStorageLayout_visit (ctx : GenCtx) (layouts : ProgramLayouts)
    (s : GlobalStmnt) :
    eraseStorageLayout (visitGlobalStmnt ctx layouts s).1 = eraseStorageLayout s := by
  cases s with
  | uniformBufferDecl u =>
    simp only [visitGlobalStmnt]
    unfold visitUniformBufferDecl
    split <;> simp [eraseStorageLayout, deriveCommonStorageLayout]
  | _ => rfl

/-- C5 (amended): the generator stage mutates the AST through its
pre-generation passes (reachability marking, struct-parameter marking,
function renaming) and through the storage-layout derivation of uniform
buffers; the emission traversal itself changes nothing else - modulo the
derived uniform-buffer storage-layout field, the statement list after the
traversal is the statement list before it. -/
theorem c5_emission_pass_mutates_only_storage_layout
    (ctx : GenCtx) (layouts : ProgramLayouts) (stmnts : List GlobalStmnt) :
    (visitGlobalStmnts ctx layouts stmnts).1.map eraseStorageLayout
      = stmnts.map eraseStorageLayout := by
  induction stmnts with
  | nil => rfl
  | cons s rest ih =>
    unfold visitGlobalStmnts
    dsimp only
    split
    · simp [eraseStorageLayout_visit]
    · simp [eraseStorageLayout_visit, ih]

/-! ## Claim C6: autoBinding implies explicitBinding -/

/-- C6: whenever `autoBinding` is set, the internal copy of the output
descriptor has `explicitBinding` set before any stage runs - even when the
caller passed `explicitBinding = false` - and the pipeline operates on that
copy (the caller's descriptor, passed by const reference, is never written
through). -/
theorem c6_auto_binding_implies_explicit_binding (env : StageEnv) (log : Bool)
    (inputDesc : ShaderInput) (outputDesc : ShaderOutput) (reflectionData : Bool)
    (h : outputDesc.options.autoBinding = true) :
    (outputDescCopy outputDesc).options.explicitBinding = true
    ∧ (outputDescCopy outputDesc).options.autoBinding = true
    ∧ (IsLanguageHLSL inputDesc.shaderVersion = true
        ∨ outputDesc.options.preprocessOnly = true →
        compileShader env log inputDesc outputDesc reflectionData
          = compileShaderPrimary env log inputDesc (outputDescCopy outputDesc)
              reflectionData) := by
  refine ⟨?_, ?_, ?_⟩
  · by_cases hv : outputDesc.options.validateOnly <;> simp [outputDescCopy, hv, h]
  · by_cases hv : outputDesc.options.validateOnly <;> simp [outputDescCopy, hv, h]
  · intro hr
    unfold compileShader
    rcases hr with hr | hr <;> simp [hr]

/-- Witness for C6: a descriptor with `autoBinding = true, explicitBinding =
false` gets `explicitBinding = true` on the internal copy. -/
theorem c6_auto_binding_implies_explicit_binding_witness :
    c6Output.options.autoBinding = true
    ∧ c6Output.options.explicitBinding = false
    ∧ (outputDescCopy c6Output).options.explicitBinding = true :=
  ⟨rfl, rfl,
   (c6_auto_binding_implies_explicit_binding allOkEnv true hlslInput c6Output false rfl).1⟩

/-! ## Claim C7: reflection still runs when generation fails -/

/-- C7: when code generation fails and the caller supplied a reflection-data
record, `CompileShaderPrimary` still runs the reflection extractor (the
generator-failure check was moved after reflection) and only then returns
false, without throwing. -/
theorem c7_reflection_runs_after_generator_failure (env : StageEnv) (log : Bool)
    (inputDesc : ShaderInput) (outputDesc : ShaderOutput)
    (warns : List Report) (processedInput : String)
    (hval : validateArguments inputDesc outputDesc = .ok warns)
    (hpre : env.preprocessResult = some processedInput)
    (hppo : outputDesc.options.preprocessOnly = false)
    (hhlsl : IsLanguageHLSL inputDesc.shaderVersion = true)
    (hparse : env.parseResult = true)
    (hana : env.analyzeResult = true)
    (hgen : env.generatorResult = false) :
    (compileShaderPrimary env log inputDesc outputDesc true).reflectionReflected = true
    ∧ Stage.reflect ∈ (compileShaderPrimary env log inputDesc outputDesc true).stagesRun
    ∧ (compileShaderPrimary env log inputDesc outputDesc true).returned = false
    ∧ (compileShaderPrimary env log inputDesc outputDesc true).exception = none := by
  unfold compileShaderPrimary
  rw [hval, hpre]
  simp [hppo, hhlsl, hparse, hana, hgen]

/-- Witness for C7: a concrete run with a failing generator and a supplied
reflection record reflects and returns false. -/
theorem c7_reflection_runs_after_generator_failure_witness :
    (compileShaderPrimary genFailEnv true hlslInput callerOutput true).reflectionReflected
      = true
    ∧ Stage.reflect ∈ (compileShaderPrimary genFailEnv true hlslInput callerOutput
        true).stagesRun
    ∧ (compileShaderPrimary genFailEnv true hlslInput callerOutput true).returned = false
    ∧ (compileShaderPrimary genFailEnv true hlslInput callerOutput true).exception = none :=
  c7_reflection_runs_after_generator_failure genFailEnv true hlslInput callerOutput
    [] "p" rfl rfl rfl rfl rfl rfl rfl

/-! ## Claim C8: numeric literal emission -/

/-- C8 (counterexample): the float literal `1e5` is emitted as `1e5f`, which
carries the `f` suffix but no decimal point - the claim that every emitted
float literal carries a decimal point is false for exponent-form literals. -/
theorem c8_exponent_float_literal_lacks_decimal_point :
    writeLiteral "1e5" DataType.Float = some "1e5f"
    ∧ strContains "1e5f" '.' = false := by
  decide

/-- C8 (amended): scalar float literals are emitted with `.0` inserted only
when the text carries none of `.`, `e`, `E`, and always end with the `f`
suffix (so the emitted text always has a decimal point or an exponent
marker, and ends in `f`); scalar unsigned literals get a `u` suffix that is
not duplicated when the literal already ends in `u` or `U`; and a
vector-typed literal is emitted as a constructor call of the vector type
applied to the literal text. -/
theorem c8_literal_suffix_rules (value : String) (dataType : DataType) :
    (dataType = DataType.Float →
      ∃ res, writeLiteral value dataType = some res
        ∧ strBack res = 'f'
        ∧ (strContains res '.' || strContains res 'e' || strContains res 'E') = true)
    ∧ (dataType = DataType.UInt → value ≠ "" →
        ((strBack value = 'u' ∨ strBack value = 'U') →
            writeLiteral value dataType = some value)
        ∧ (strBack value ≠ 'u' → strBack value ≠ 'U' →
            writeLiteral value dataType = some (value ++ "u")))
    ∧ (IsVectorType dataType = true →
        writeLiteral value dataType
          = some (DataTypeToString dataType ++ "(" ++ value ++ ")")) := by
  refine ⟨?_, ?_, ?_⟩
  · rintro rfl
    by_cases hc : (strContains value '.' || strContains value 'e'
        || strContains value 'E') = true
    · refine ⟨value ++ "f", ?_, ?_, ?_⟩
      · simp [writeLiteral, IsScalarType, hc]
      · simp [strBack, String.data_append]
      · rcases Bool.or_eq_true_iff.mp hc with h | h
        · rcases Bool.or_eq_true_iff.mp h with h | h
          · simp only [strContains, String.data_append] at *
            simp [h]
          · simp only [strContains, String.data_append] at *
            simp [h]
        · simp only [strContains, String.data_append] at *
          simp [h]
    · refine ⟨value ++ ".0f", ?_, ?_, ?_⟩
      · have hc2 : (strContains value '.' || strContains value 'e'
            || strContains value 'E') = false := by
          simpa using hc
        simp [writeLiteral, IsScalarType, hc2]
      · have hd : (value ++ ".0f").data = (value.data ++ ['.', '0']) ++ ['f'] := by
          simp [String.data_append]
        simp [strBack, hd]
      · simp only [strContains, String.data_append]
        simp
  · rintro rfl hne
    constructor
    · intro hsuff
      rcases hsuff with h | h <;> simp [writeLiteral, IsScalarType, h]
    · intro h1 h2
      simp [writeLiteral, IsScalarType, hne, h1, h2]
  · intro hv
    have hs : IsScalarType dataType = false := by
      cases dataType <;> simp_all [IsVectorType, IsScalarType]
    simp [writeLiteral, hs, hv]

/-- Witness for C8 (amended): the float literal `2` is emitted with a decimal
point and the `f` suffix. -/
theorem c8_literal_suffix_rules_witness :
    ∃ res, writeLiteral "2" DataType.Float = some res
      ∧ strBack res = 'f'
      ∧ (strContains res '.' || strContains res 'e' || strContains res 'E') = true :=
  (c8_literal_suffix_rules "2" DataType.Float).1 rfl

/-! ## Claim C9: default CLI output filename -/

/-- C9: when the CLI compiles an input file with no configured output
filename, the output filename is the input filename's stem, a dot, the entry
point, a dot, and the target's extension, where the extension is `vert`,
`tesc`, `tese`, `geom`, `frag` or `comp` for the named shader stages and
`glsl` for any other target, the undefined target included. -/
theorem c9_default_output_filename (state : ShellState) (filename : String)
    (h : state.outputFilename = "") :
    shellCompileOutputFilename state filename
      = GetFilePart filename ++ "." ++ state.inputDesc.entryPoint ++ "."
        ++ TargetToExtension state.inputDesc.shaderTarget
    ∧ TargetToExtension state.inputDesc.shaderTarget ∈
        ["vert", "tesc", "tese", "geom", "frag", "comp", "glsl"]
    ∧ (state.inputDesc.shaderTarget = .VertexShader →
        TargetToExtension state.inputDesc.shaderTarget = "vert")
    ∧ (state.inputDesc.shaderTarget = .TessellationControlShader →
        TargetToExtension state.inputDesc.shaderTarget = "tesc")
    ∧ (state.inputDesc.shaderTarget = .TessellationEvaluationShader →
        TargetToExtension state.inputDesc.shaderTarget = "tese")
    ∧ (state.inputDesc.shaderTarget = .GeometryShader →
        TargetToExtension state.inputDesc.shaderTarget = "geom")
    ∧ (state.inputDesc.shaderTarget = .FragmentShader →
        TargetToExtension state.inputDesc.shaderTarget = "frag")
    ∧ (state.inputDesc.shaderTarget = .ComputeShader →
        TargetToExtension state.inputDesc.shaderTarget = "comp")
    ∧ (state.inputDesc.shaderTarget = .Undefined →
        TargetToExtension state.inputDesc.shaderTarget = "glsl") := by
  refine ⟨?_, ?_, fun ht => by simp [ht, TargetToExtension],
    fun ht => by simp [ht, TargetToExtension], fun ht => by simp [ht, TargetToExtension],
    fun ht => by simp [ht, TargetToExtension], fun ht => by simp [ht, TargetToExtension],
    fun ht => by simp [ht, TargetToExtension], fun ht => by simp [ht, TargetToExtension]⟩
  · simp [shellCompileOutputFilename, GetDefaultOutputFilename, h]
  · cases state.inputDesc.shaderTarget <;> simp [TargetToExtension]

/-- Witness for C9: the fragment-shader default output filename for
`shader.hlsl` with entry `main` is `shader.main.frag`. -/
theorem c9_default_output_filename_witness :
    shellCompileOutputFilename c9State "shader.hlsl" = "shader.main.frag" :=
  ((c9_default_output_filename c9State "shader.hlsl" rfl).1).trans (by decide)

/-! ## Claim C10: non-HLSL input is rejected unless preprocess-only -/

/-- C10: for every input descriptor whose shader version is not an HLSL
version, if `preprocessOnly` is off the compile function submits exactly one
error report to the log sink and returns false without running any pipeline
stage or writing anything; if `preprocessOnly` is on, the non-HLSL input is
accepted (given valid arguments) and only the preprocessing stage runs. -/
theorem c10_non_hlsl_rejected_unless_preprocess_only (env : StageEnv)
    (inputDesc : ShaderInput) (outputDesc : ShaderOutput) (reflectionData : Bool)
    (hver : IsLanguageHLSL inputDesc.shaderVersion = false) :
    (outputDesc.options.preprocessOnly = false →
      compileShaderPublic env true inputDesc outputDesc reflectionData
        = { returned := false,
            reports := [Report.mk .Error R_OnlyPreProcessingForNonHLSL] })
    ∧ (outputDesc.options.preprocessOnly = true →
        ∀ warns, validateArguments inputDesc (outputDescCopy outputDesc) = .ok warns →
          (compileShaderPublic env true inputDesc outputDesc reflectionData).stagesRun
            = [Stage.preprocess]
          ∧ (compileShaderPublic env true inputDesc outputDesc reflectionData).exception
            = none) := by
  constructor
  · intro hpo
    unfold compileShaderPublic compileShader
    simp [hver, hpo, submitIf]
  · intro hpo warns hval
    unfold compileShaderPublic compileShader compileShaderPrimary
    rw [hval]
    simp [hver, hpo]
    cases hpp : env.preprocessResult with
    | none => simp [hpp]
    | some s => simp [hpp, outputDescCopy_preprocessOnly, hpo]

/-- Witness for C10: a GLSL input without `preprocessOnly` yields exactly the
single-error trace; with `preprocessOnly` only preprocessing runs. -/
theorem c10_non_hlsl_rejected_unless_preprocess_only_witness :
    (compileShaderPublic allOkEnv true glslInput callerOutput false
      = { returned := false,
          reports := [Report.mk .Error R_OnlyPreProcessingForNonHLSL] })
    ∧ (compileShaderPublic allOkEnv true glslInput preprocessOnlyOutput false).stagesRun
        = [Stage.preprocess] :=
  ⟨(c10_non_hlsl_rejected_unless_preprocess_only allOkEnv glslInput callerOutput false
      rfl).1 rfl,
   ((c10_non_hlsl_rejected_unless_preprocess_only allOkEnv glslInput preprocessOnlyOutput
      false rfl).2 rfl [] rfl).1⟩

end Xsc
